import Mathlib

/-!
# Verification of the rte-rrtmgp-cpp aerosol optics and flux reduction core

Shallow embedding of `src/Aerosol_optics.cpp`, `src/Fluxes.cpp` and the
column-blocking driver of `src_test/test_rte_rrtmgp.cpp`.

Modelling conventions:
* The C++ `Float` type (double) is modelled by `ℚ`; the claims under study are
  about comparisons, index scans and the algebraic structure of accumulations,
  which are exact in this model.
* The 1-based, Fortran-ordered `Array<Float,N>` containers are modelled as
  total functions from (1-based) `Nat` indices to `ℚ`; where the source reads
  an array extent (`dim(k)`), the model carries the extent explicitly.
* Perfectly nested data-parallel loops that write each output cell exactly
  once from the inputs only are embedded pointwise: the model gives the value
  written at each (in-range) cell.
-/

namespace RteRrtmgp

/-! ## Humidity-bin lookup (`rh_class`, Aerosol_optics.cpp lines 26-36)

The C++ code is

```
int rh_class(Float rel_hum, std::vector<Float> rh2)
{
    int ihum = 0;
    Float rh_class = rh2[ihum];
    while (rh_class < rel_hum)
    {
        ihum += 1;
        rh_class = rh2[ihum];
    }
    return ihum;
}
```

Each loop step reads `rh2[ihum]`; when `ihum` reaches `rh2.size()` this read
is out of bounds (undefined behavior).  The embedding makes that explicit:
`none` means the scan ran past the end of the vector. -/

/-- One pass of the `while` scan of `rh_class`, walking the remaining suffix
of the threshold vector and carrying the current index `ihum`.  `none`
models the out-of-bounds read `rh2[rh2.size()]` that the C++ loop performs
when every threshold is below `rel_hum`. -/
def rh_class_loop (rel_hum : ℚ) : List ℚ → Nat → Option Nat
  | [], _ => none
  | c :: rest, ihum => if c < rel_hum then rh_class_loop rel_hum rest (ihum + 1) else some ihum

/-- Embedding of `rh_class` from Aerosol_optics.cpp: scan the humidity thresholds in order,
returning the first index whose threshold is not below `rel_hum`;
`none` models the out-of-bounds read when no such threshold exists. -/
def rh_class (rel_hum : ℚ) (rh2 : List ℚ) : Option Nat :=
  rh_class_loop rel_hum rh2 0

/-- The thresholds used in the spec's humidity-bin example. -/
def example_rh_classes : List ℚ :=
  [0, 1/2, 4/5, 9/10, 95/100, 99/100]

lemma rh_class_loop_spec (rel_hum : ℚ) (l : List ℚ) (i0 : Nat)
    (hex : ∃ c ∈ l, rel_hum ≤ c) :
    ∃ j, rh_class_loop rel_hum l i0 = some (i0 + j) ∧
      ∃ hj : j < l.length, rel_hum ≤ l.get ⟨j, hj⟩ ∧
        ∀ k (hk : k < j), l.get ⟨k, Nat.lt_trans hk hj⟩ < rel_hum := by
  induction l generalizing i0 with
  | nil => rcases hex with ⟨c, hc, _⟩; exact absurd hc (List.not_mem_nil c)
  | cons c rest ih =>
    by_cases hlt : c < rel_hum
    · have hex' : ∃ d ∈ rest, rel_hum ≤ d := by
        rcases hex with ⟨d, hd, hrd⟩
        rcases List.mem_cons.mp hd with rfl | hd'
        · exact absurd hlt (not_lt.mpr hrd)
        · exact ⟨d, hd', hrd⟩
      rcases ih (i0 + 1) hex' with ⟨j, hval, hj, hle, hmin⟩
      refine ⟨j + 1, ?_, ?_⟩
      · simp only [rh_class_loop, if_pos hlt]
        rw [hval]
        congr 1
        omega
      · have hj' : j + 1 < (c :: rest).length := by
          simp only [List.length_cons]; omega
        refine ⟨hj', ?_, ?_⟩
        · simpa using hle
        · intro k hk
          cases k with
          | zero => simpa using hlt
          | succ k' =>
            have hk' : k' < j := by omega
            simpa using hmin k' hk'
    · refine ⟨0, ?_, ?_⟩
      · simp [rh_class_loop, if_neg hlt]
      · refine ⟨by simp, by simpa using not_lt.mp hlt, ?_⟩
        intro k hk; omega

lemma rh_class_loop_none (rel_hum : ℚ) (l : List ℚ) (i0 : Nat)
    (hall : ∀ c ∈ l, c < rel_hum) :
    rh_class_loop rel_hum l i0 = none := by
  induction l generalizing i0 with
  | nil => rfl
  | cons c rest ih =>
    have hc : c < rel_hum := hall c (List.mem_cons_self c rest)
    simp only [rh_class_loop, if_pos hc]
    exact ih (i0 + 1) (fun d hd => hall d (List.mem_cons_of_mem c hd))

/-- C1: for an ascending threshold vector and a relative humidity not above the
last threshold, `rh_class` returns the smallest 0-based index whose threshold
is greater than or equal to the humidity (the "not less than" reading of the
stopping rule). -/
theorem rh_class_returns_least_index_geq
    (rel_hum : ℚ) (rh2 : List ℚ) (hne : rh2 ≠ [])
    (_hsorted : rh2.Sorted (· ≤ ·))
    (hlast : rel_hum ≤ rh2.getLast hne) :
    ∃ j, rh_class rel_hum rh2 = some j ∧
      ∃ hj : j < rh2.length, rel_hum ≤ rh2.get ⟨j, hj⟩ ∧
        ∀ k (hk : k < j), rh2.get ⟨k, Nat.lt_trans hk hj⟩ < rel_hum := by
  have hex : ∃ c ∈ rh2, rel_hum ≤ c :=
    ⟨rh2.getLast hne, List.getLast_mem hne, hlast⟩
  rcases rh_class_loop_spec rel_hum rh2 0 hex with ⟨j, hval, hj, hle, hmin⟩
  exact ⟨j, by simpa [rh_class] using hval, hj, hle, hmin⟩

/-- C1 witness: for thresholds [0.0, 0.5, 0.8, 0.9, 0.95, 0.99] and relative
humidity 0.85, the lookup returns bin index 3, which is a valid index holding
a threshold ≥ 0.85 while every earlier threshold is < 0.85. -/
theorem rh_class_returns_least_index_geq_witness :
    rh_class (85/100) example_rh_classes = some 3 ∧
    ∃ j, rh_class (85/100) example_rh_classes = some j ∧
      ∃ hj : j < example_rh_classes.length,
        (85/100 : ℚ) ≤ example_rh_classes.get ⟨j, hj⟩ ∧
        ∀ k (hk : k < j),
          example_rh_classes.get ⟨k, Nat.lt_trans hk hj⟩ < 85/100 :=
  ⟨by norm_num [rh_class, rh_class_loop, example_rh_classes],
   rh_class_returns_least_index_geq (85/100) example_rh_classes
     (by simp [example_rh_classes])
     (by norm_num [example_rh_classes, List.sorted_cons])
     (by norm_num [example_rh_classes, List.getLast])⟩

/-- C2: if the relative humidity is strictly above every threshold, the scan
in `rh_class` runs past the end of the threshold vector (the out-of-bounds
read modelled by `none`) instead of returning the last bin index. -/
theorem rh_class_overruns_when_all_below
    (rel_hum : ℚ) (rh2 : List ℚ) (hall : ∀ c ∈ rh2, c < rel_hum) :
    rh_class rel_hum rh2 = none :=
  rh_class_loop_none rel_hum rh2 0 hall

/-- C2 witness: with the example thresholds and relative humidity 0.999
(strictly above all of them), the scan reads past the table end. -/
theorem rh_class_overruns_when_all_below_witness :
    (∀ c ∈ example_rh_classes, c < (999/1000 : ℚ)) ∧
    rh_class (999/1000) example_rh_classes = none :=
  ⟨by norm_num [example_rh_classes],
   rh_class_overruns_when_all_below (999/1000) example_rh_classes
     (by norm_num [example_rh_classes])⟩

/-! ## Aerosol optics from table (`compute_all_from_table`, Aerosol_optics.cpp lines 38-155)

The lookup tables: the hydrophobic tables are indexed by (band, species
column), the hydrophilic tables by (band, humidity bin, species column);
all indices are 1-based as in the source. -/

/-- Coefficient tables of `Aerosol_optics` (members loaded in the constructor). -/
structure AerosolTables where
  mext_phobic : Nat → Nat → ℚ
  ssa_phobic : Nat → Nat → ℚ
  g_phobic : Nat → Nat → ℚ
  mext_philic : Nat → Nat → Nat → ℚ
  ssa_philic : Nat → Nat → Nat → ℚ
  g_philic : Nat → Nat → Nat → ℚ

/-- The eleven per-(column, layer) aerosol mass-mixing-ratio fields
`aermr01` .. `aermr11`, indexed (icol, ilay), 1-based. -/
structure MMRs where
  aermr01 : Nat → Nat → ℚ
  aermr02 : Nat → Nat → ℚ
  aermr03 : Nat → Nat → ℚ
  aermr04 : Nat → Nat → ℚ
  aermr05 : Nat → Nat → ℚ
  aermr06 : Nat → Nat → ℚ
  aermr07 : Nat → Nat → ℚ
  aermr08 : Nat → Nat → ℚ
  aermr09 : Nat → Nat → ℚ
  aermr10 : Nat → Nat → ℚ
  aermr11 : Nat → Nat → ℚ

/-- The species loop order of `compute_all_from_table`
(`list_aerosol_types` in the source). -/
def list_aerosol_types : List String :=
  ["SS1", "SS2", "SS3", "DU1", "DU2", "DU3", "OM1", "OM2", "BC1", "BC2", "SU"]

/-- The `if`/`else if` chain of `compute_all_from_table` selecting, for one
species name, the (mext, ssa, g, mmr) quadruple it uses; the final branch
(never reached for the names in `list_aerosol_types`) models the otherwise
uninitialized locals as zeros. -/
def species_select (t : AerosolTables) (m : MMRs)
    (ibnd ihum icol ilay : Nat) (aerosol_class : String) : ℚ × ℚ × ℚ × ℚ :=
  if aerosol_class = "DU1" then
    (t.mext_phobic ibnd 1, t.ssa_phobic ibnd 1, t.g_phobic ibnd 1, m.aermr04 icol ilay)
  else if aerosol_class = "DU2" then
    (t.mext_phobic ibnd 8, t.ssa_phobic ibnd 8, t.g_phobic ibnd 8, m.aermr05 icol ilay)
  else if aerosol_class = "DU3" then
    (t.mext_phobic ibnd 6, t.ssa_phobic ibnd 6, t.g_phobic ibnd 6, m.aermr06 icol ilay)
  else if aerosol_class = "BC1" then
    (t.mext_phobic ibnd 11, t.ssa_phobic ibnd 11, t.g_phobic ibnd 11, m.aermr09 icol ilay)
  else if aerosol_class = "BC2" then
    (t.mext_phobic ibnd 11, t.ssa_phobic ibnd 11, t.g_phobic ibnd 11, m.aermr10 icol ilay)
  else if aerosol_class = "SS1" then
    (t.mext_philic ibnd ihum 1, t.ssa_philic ibnd ihum 1, t.g_philic ibnd ihum 1, m.aermr01 icol ilay)
  else if aerosol_class = "SS2" then
    (t.mext_philic ibnd ihum 2, t.ssa_philic ibnd ihum 2, t.g_philic ibnd ihum 2, m.aermr02 icol ilay)
  else if aerosol_class = "SS3" then
    (t.mext_philic ibnd ihum 3, t.ssa_philic ibnd ihum 3, t.g_philic ibnd ihum 3, m.aermr03 icol ilay)
  else if aerosol_class = "SU" then
    (t.mext_philic ibnd ihum 5, t.ssa_philic ibnd ihum 5, t.g_philic ibnd ihum 5, m.aermr11 icol ilay)
  else if aerosol_class = "OM1" then
    (t.mext_phobic ibnd 10, t.ssa_phobic ibnd 10, t.g_phobic ibnd 10, m.aermr08 icol ilay)
  else if aerosol_class = "OM2" then
    (t.mext_philic ibnd ihum 4, t.ssa_philic ibnd ihum 4, t.g_philic ibnd ihum 4, m.aermr07 icol ilay)
  else (0, 0, 0, 0)

/-- The body of the species loop of `compute_all_from_table`, given the
(1-based) humidity bin `ihum`: fold over `list_aerosol_types`, accumulating
`tau_local`, `taussa_local`, `taussag_local` from
`local_od = mmr * dpg * mext`. -/
def species_accum (t : AerosolTables) (m : MMRs) (dpg : Nat → Nat → ℚ)
    (ibnd ihum icol ilay : Nat) : ℚ × ℚ × ℚ :=
  list_aerosol_types.foldl
    (fun acc aerosol_class =>
      let q := species_select t m ibnd ihum icol ilay aerosol_class
      let local_od := q.2.2.2 * dpg icol ilay * q.1
      (acc.1 + local_od, acc.2.1 + local_od * q.2.1, acc.2.2 + local_od * q.2.1 * q.2.2.1))
    (0, 0, 0)

/-- One cell of `compute_all_from_table`: the (tau, taussa, taussag) values
written at (icol, ilay, ibnd).  The source calls `rh_class` inside the
species loop with loop-invariant arguments, so the call is hoisted here;
`ihum` is the 0-based bin index plus one (1-based for the hydrophilic
tables).  `none` models the undefined behavior of an exhausted humidity
scan. -/
def compute_all_from_table_cell (t : AerosolTables) (m : MMRs)
    (rh dpg : Nat → Nat → ℚ) (rh_classes : List ℚ)
    (ibnd ilay icol : Nat) : Option (ℚ × ℚ × ℚ) :=
  (rh_class (rh icol ilay) rh_classes).map
    (fun h => species_accum t m dpg ibnd (h + 1) icol ilay)

/-- Machine epsilon of the `double` instantiation
(`std::numeric_limits<double>::epsilon()`). -/
def float_eps : ℚ := 1 / 2 ^ 52

/-- A two-stream optical properties container: per-(icol, ilay, ibnd) optical
depth, single-scattering albedo and asymmetry factor, 1-based indices. -/
structure Optical_props_2str where
  tau : Nat → Nat → Nat → ℚ
  ssa : Nat → Nat → Nat → ℚ
  g : Nat → Nat → Nat → ℚ

/-- Embedding of `Aerosol_optics::aerosol_optics`: run `compute_all_from_table` on the
(ncol, nlay, nbnd) grid and overwrite each in-range cell of the target
container with `tau`, `taussa / max(tau, eps)`, `taussag / max(taussa, eps)`.
Cells outside the grid keep the previous contents; a cell whose humidity scan
overruns the table (undefined behavior in the source) is left unspecified as
the previous contents, and every theorem below assumes the scan succeeds. -/
def aerosol_optics (ncol nlay nbnd : Nat) (t : AerosolTables) (m : MMRs)
    (rh dpg : Nat → Nat → ℚ) (rh_classes : List ℚ)
    (props : Optical_props_2str) : Optical_props_2str where
  tau := fun icol ilay ibnd =>
    if 1 ≤ icol ∧ icol ≤ ncol ∧ 1 ≤ ilay ∧ ilay ≤ nlay ∧ 1 ≤ ibnd ∧ ibnd ≤ nbnd then
      match compute_all_from_table_cell t m rh dpg rh_classes ibnd ilay icol with
      | some v => v.1
      | none => props.tau icol ilay ibnd
    else props.tau icol ilay ibnd
  ssa := fun icol ilay ibnd =>
    if 1 ≤ icol ∧ icol ≤ ncol ∧ 1 ≤ ilay ∧ ilay ≤ nlay ∧ 1 ≤ ibnd ∧ ibnd ≤ nbnd then
      match compute_all_from_table_cell t m rh dpg rh_classes ibnd ilay icol with
      | some v => v.2.1 / max v.1 float_eps
      | none => props.ssa icol ilay ibnd
    else props.ssa icol ilay ibnd
  g := fun icol ilay ibnd =>
    if 1 ≤ icol ∧ icol ≤ ncol ∧ 1 ≤ ilay ∧ ilay ≤ nlay ∧ 1 ≤ ibnd ∧ ibnd ≤ nbnd then
      match compute_all_from_table_cell t m rh dpg rh_classes ibnd ilay icol with
      | some v => v.2.2 / max v.2.1 float_eps
      | none => props.g icol ilay ibnd
    else props.g icol ilay ibnd

/-! The spec-side per-cell sums of 4.2: eleven terms
`mixing_ratio × dry_air_mass_path × mass_extinction_coefficient`, the species
drawing coefficients from the hydrophobic table (DU1, DU2, DU3, OM1, BC1, BC2)
or from the hydrophilic table at humidity bin `ihum`
(SS1, SS2, SS3, OM2, SU). -/

/-- Spec-side accumulated optical depth: Σ over the 11 species of
mmr × dpg × mext with the fixed hydrophobic/hydrophilic mapping. -/
def cell_tau_spec (t : AerosolTables) (m : MMRs) (dpg : Nat → Nat → ℚ)
    (ibnd ihum icol ilay : Nat) : ℚ :=
  m.aermr01 icol ilay * dpg icol ilay * t.mext_philic ibnd ihum 1 +
  m.aermr02 icol ilay * dpg icol ilay * t.mext_philic ibnd ihum 2 +
  m.aermr03 icol ilay * dpg icol ilay * t.mext_philic ibnd ihum 3 +
  m.aermr04 icol ilay * dpg icol ilay * t.mext_phobic ibnd 1 +
  m.aermr05 icol ilay * dpg icol ilay * t.mext_phobic ibnd 8 +
  m.aermr06 icol ilay * dpg icol ilay * t.mext_phobic ibnd 6 +
  m.aermr08 icol ilay * dpg icol ilay * t.mext_phobic ibnd 10 +
  m.aermr07 icol ilay * dpg icol ilay * t.mext_philic ibnd ihum 4 +
  m.aermr09 icol ilay * dpg icol ilay * t.mext_phobic ibnd 11 +
  m.aermr10 icol ilay * dpg icol ilay * t.mext_phobic ibnd 11 +
  m.aermr11 icol ilay * dpg icol ilay * t.mext_philic ibnd ihum 5

/-- Spec-side accumulated tau × ssa. -/
def cell_taussa_spec (t : AerosolTables) (m : MMRs) (dpg : Nat → Nat → ℚ)
    (ibnd ihum icol ilay : Nat) : ℚ :=
  m.aermr01 icol ilay * dpg icol ilay * t.mext_philic ibnd ihum 1 * t.ssa_philic ibnd ihum 1 +
  m.aermr02 icol ilay * dpg icol ilay * t.mext_philic ibnd ihum 2 * t.ssa_philic ibnd ihum 2 +
  m.aermr03 icol ilay * dpg icol ilay * t.mext_philic ibnd ihum 3 * t.ssa_philic ibnd ihum 3 +
  m.aermr04 icol ilay * dpg icol ilay * t.mext_phobic ibnd 1 * t.ssa_phobic ibnd 1 +
  m.aermr05 icol ilay * dpg icol ilay * t.mext_phobic ibnd 8 * t.ssa_phobic ibnd 8 +
  m.aermr06 icol ilay * dpg icol ilay * t.mext_phobic ibnd 6 * t.ssa_phobic ibnd 6 +
  m.aermr08 icol ilay * dpg icol ilay * t.mext_phobic ibnd 10 * t.ssa_phobic ibnd 10 +
  m.aermr07 icol ilay * dpg icol ilay * t.mext_philic ibnd ihum 4 * t.ssa_philic ibnd ihum 4 +
  m.aermr09 icol ilay * dpg icol ilay * t.mext_phobic ibnd 11 * t.ssa_phobic ibnd 11 +
  m.aermr10 icol ilay * dpg icol ilay * t.mext_phobic ibnd 11 * t.ssa_phobic ibnd 11 +
  m.aermr11 icol ilay * dpg icol ilay * t.mext_philic ibnd ihum 5 * t.ssa_philic ibnd ihum 5

/-- Spec-side accumulated tau × ssa × g. -/
def cell_taussag_spec (t : AerosolTables) (m : MMRs) (dpg : Nat → Nat → ℚ)
    (ibnd ihum icol ilay : Nat) : ℚ :=
  m.aermr01 icol ilay * dpg icol ilay * t.mext_philic ibnd ihum 1 * t.ssa_philic ibnd ihum 1 * t.g_philic ibnd ihum 1 +
  m.aermr02 icol ilay * dpg icol ilay * t.mext_philic ibnd ihum 2 * t.ssa_philic ibnd ihum 2 * t.g_philic ibnd ihum 2 +
  m.aermr03 icol ilay * dpg icol ilay * t.mext_philic ibnd ihum 3 * t.ssa_philic ibnd ihum 3 * t.g_philic ibnd ihum 3 +
  m.aermr04 icol ilay * dpg icol ilay * t.mext_phobic ibnd 1 * t.ssa_phobic ibnd 1 * t.g_phobic ibnd 1 +
  m.aermr05 icol ilay * dpg icol ilay * t.mext_phobic ibnd 8 * t.ssa_phobic ibnd 8 * t.g_phobic ibnd 8 +
  m.aermr06 icol ilay * dpg icol ilay * t.mext_phobic ibnd 6 * t.ssa_phobic ibnd 6 * t.g_phobic ibnd 6 +
  m.aermr08 icol ilay * dpg icol ilay * t.mext_phobic ibnd 10 * t.ssa_phobic ibnd 10 * t.g_phobic ibnd 10 +
  m.aermr07 icol ilay * dpg icol ilay * t.mext_philic ibnd ihum 4 * t.ssa_philic ibnd ihum 4 * t.g_philic ibnd ihum 4 +
  m.aermr09 icol ilay * dpg icol ilay * t.mext_phobic ibnd 11 * t.ssa_phobic ibnd 11 * t.g_phobic ibnd 11 +
  m.aermr10 icol ilay * dpg icol ilay * t.mext_phobic ibnd 11 * t.ssa_phobic ibnd 11 * t.g_phobic ibnd 11 +
  m.aermr11 icol ilay * dpg icol ilay * t.mext_philic ibnd ihum 5 * t.ssa_philic ibnd ihum 5 * t.g_philic ibnd ihum 5

lemma species_select_SS1 (t : AerosolTables) (m : MMRs) (ibnd ihum icol ilay : Nat) :
    species_select t m ibnd ihum icol ilay "SS1" =
      (t.mext_philic ibnd ihum 1, t.ssa_philic ibnd ihum 1, t.g_philic ibnd ihum 1,
       m.aermr01 icol ilay) := rfl

lemma species_select_SS2 (t : AerosolTables) (m : MMRs) (ibnd ihum icol ilay : Nat) :
    species_select t m ibnd ihum icol ilay "SS2" =
      (t.mext_philic ibnd ihum 2, t.ssa_philic ibnd ihum 2, t.g_philic ibnd ihum 2,
       m.aermr02 icol ilay) := rfl

lemma species_select_SS3 (t : AerosolTables) (m : MMRs) (ibnd ihum icol ilay : Nat) :
    species_select t m ibnd ihum icol ilay "SS3" =
      (t.mext_philic ibnd ihum 3, t.ssa_philic ibnd ihum 3, t.g_philic ibnd ihum 3,
       m.aermr03 icol ilay) := rfl

lemma species_select_DU1 (t : AerosolTables) (m : MMRs) (ibnd ihum icol ilay : Nat) :
    species_select t m ibnd ihum icol ilay "DU1" =
      (t.mext_phobic ibnd 1, t.ssa_phobic ibnd 1, t.g_phobic ibnd 1,
       m.aermr04 icol ilay) := rfl

lemma species_select_DU2 (t : AerosolTables) (m : MMRs) (ibnd ihum icol ilay : Nat) :
    species_select t m ibnd ihum icol ilay "DU2" =
      (t.mext_phobic ibnd 8, t.ssa_phobic ibnd 8, t.g_phobic ibnd 8,
       m.aermr05 icol ilay) := rfl

lemma species_select_DU3 (t : AerosolTables) (m : MMRs) (ibnd ihum icol ilay : Nat) :
    species_select t m ibnd ihum icol ilay "DU3" =
      (t.mext_phobic ibnd 6, t.ssa_phobic ibnd 6, t.g_phobic ibnd 6,
       m.aermr06 icol ilay) := rfl

lemma species_select_OM1 (t : AerosolTables) (m : MMRs) (ibnd ihum icol ilay : Nat) :
    species_select t m ibnd ihum icol ilay "OM1" =
      (t.mext_phobic ibnd 10, t.ssa_phobic ibnd 10, t.g_phobic ibnd 10,
       m.aermr08 icol ilay) := rfl

lemma species_select_OM2 (t : AerosolTables) (m : MMRs) (ibnd ihum icol ilay : Nat) :
    species_select t m ibnd ihum icol ilay "OM2" =
      (t.mext_philic ibnd ihum 4, t.ssa_philic ibnd ihum 4, t.g_philic ibnd ihum 4,
       m.aermr07 icol ilay) := rfl

lemma species_select_BC1 (t : AerosolTables) (m : MMRs) (ibnd ihum icol ilay : Nat) :
    species_select t m ibnd ihum icol ilay "BC1" =
      (t.mext_phobic ibnd 11, t.ssa_phobic ibnd 11, t.g_phobic ibnd 11,
       m.aermr09 icol ilay) := rfl

lemma species_select_BC2 (t : AerosolTables) (m : MMRs) (ibnd ihum icol ilay : Nat) :
    species_select t m ibnd ihum icol ilay "BC2" =
      (t.mext_phobic ibnd 11, t.ssa_phobic ibnd 11, t.g_phobic ibnd 11,
       m.aermr10 icol ilay) := rfl

lemma species_select_SU (t : AerosolTables) (m : MMRs) (ibnd ihum icol ilay : Nat) :
    species_select t m ibnd ihum icol ilay "SU" =
      (t.mext_philic ibnd ihum 5, t.ssa_philic ibnd ihum 5, t.g_philic ibnd ihum 5,
       m.aermr11 icol ilay) := rfl

lemma species_accum_eq_spec (t : AerosolTables) (m : MMRs) (dpg : Nat → Nat → ℚ)
    (ibnd ihum icol ilay : Nat) :
    species_accum t m dpg ibnd ihum icol ilay =
      (cell_tau_spec t m dpg ibnd ihum icol ilay,
       cell_taussa_spec t m dpg ibnd ihum icol ilay,
       cell_taussag_spec t m dpg ibnd ihum icol ilay) := by
  simp only [species_accum, list_aerosol_types, List.foldl_cons, List.foldl_nil,
    species_select_SS1, species_select_SS2, species_select_SS3,
    species_select_DU1, species_select_DU2, species_select_DU3,
    species_select_OM1, species_select_OM2, species_select_BC1,
    species_select_BC2, species_select_SU,
    cell_tau_spec, cell_taussa_spec, cell_taussag_spec, Prod.mk.injEq]
  refine ⟨by ring, by ring, by ring⟩

lemma compute_cell_eq_spec_aux
    (t : AerosolTables) (m : MMRs) (rh dpg : Nat → Nat → ℚ)
    (rh_classes : List ℚ) (ibnd ilay icol h : Nat)
    (hscan : rh_class (rh icol ilay) rh_classes = some h) :
    compute_all_from_table_cell t m rh dpg rh_classes ibnd ilay icol =
      some (cell_tau_spec t m dpg ibnd (h + 1) icol ilay,
            cell_taussa_spec t m dpg ibnd (h + 1) icol ilay,
            cell_taussag_spec t m dpg ibnd (h + 1) icol ilay) := by
  simp [compute_all_from_table_cell, hscan, species_accum_eq_spec]

/-- C3: at every cell whose humidity lookup succeeds with 0-based bin `h`,
`compute_all_from_table` accumulates exactly the sum over the 11 aerosol
species of mixing_ratio × dry_air_mass_path × mass_extinction_coefficient,
the coefficients drawn from the hydrophobic table (DU1, DU2, DU3, OM1, BC1,
BC2) or from the hydrophilic table at the looked-up bin (SS1, SS2, SS3, OM2,
SU), and likewise the tau×ssa and tau×ssa×g sums. -/
theorem compute_all_from_table_cell_eq_spec
    (t : AerosolTables) (m : MMRs) (rh dpg : Nat → Nat → ℚ)
    (rh_classes : List ℚ) (ibnd ilay icol h : Nat)
    (hscan : rh_class (rh icol ilay) rh_classes = some h) :
    compute_all_from_table_cell t m rh dpg rh_classes ibnd ilay icol =
      some (cell_tau_spec t m dpg ibnd (h + 1) icol ilay,
            cell_taussa_spec t m dpg ibnd (h + 1) icol ilay,
            cell_taussag_spec t m dpg ibnd (h + 1) icol ilay) :=
  compute_cell_eq_spec_aux t m rh dpg rh_classes ibnd ilay icol h hscan

/-- C4: at every in-range cell whose humidity lookup succeeds,
`Aerosol_optics::aerosol_optics` writes the accumulated tau unchanged,
ssa = taussa / max(tau, eps) and g = taussag / max(taussa, eps), and the
write overwrites the target: the result does not depend on the container's
previous contents. -/
theorem aerosol_optics_writes_normalized_cell
    (ncol nlay nbnd : Nat) (t : AerosolTables) (m : MMRs)
    (rh dpg : Nat → Nat → ℚ) (rh_classes : List ℚ)
    (props props' : Optical_props_2str) (icol ilay ibnd : Nat)
    (hin : 1 ≤ icol ∧ icol ≤ ncol ∧ 1 ≤ ilay ∧ ilay ≤ nlay ∧ 1 ≤ ibnd ∧ ibnd ≤ nbnd)
    (v : ℚ × ℚ × ℚ)
    (hcell : compute_all_from_table_cell t m rh dpg rh_classes ibnd ilay icol = some v) :
    (aerosol_optics ncol nlay nbnd t m rh dpg rh_classes props).tau icol ilay ibnd = v.1 ∧
    (aerosol_optics ncol nlay nbnd t m rh dpg rh_classes props).ssa icol ilay ibnd =
      v.2.1 / max v.1 float_eps ∧
    (aerosol_optics ncol nlay nbnd t m rh dpg rh_classes props).g icol ilay ibnd =
      v.2.2 / max v.2.1 float_eps ∧
    (aerosol_optics ncol nlay nbnd t m rh dpg rh_classes props').tau icol ilay ibnd =
      (aerosol_optics ncol nlay nbnd t m rh dpg rh_classes props).tau icol ilay ibnd ∧
    (aerosol_optics ncol nlay nbnd t m rh dpg rh_classes props').ssa icol ilay ibnd =
      (aerosol_optics ncol nlay nbnd t m rh dpg rh_classes props).ssa icol ilay ibnd ∧
    (aerosol_optics ncol nlay nbnd t m rh dpg rh_classes props').g icol ilay ibnd =
      (aerosol_optics ncol nlay nbnd t m rh dpg rh_classes props).g icol ilay ibnd := by
  refine ⟨?_, ?_, ?_, ?_, ?_, ?_⟩ <;> simp [aerosol_optics, hin, hcell]

/-- C10: at every in-range cell where all 11 aerosol mass-mixing-ratios are
zero (and the humidity lookup succeeds), `aerosol_optics` writes optical
depth 0, single-scattering albedo 0 and asymmetry factor 0, and both
normalizing denominators are nonzero (the epsilon floor), so no division by
zero occurs. -/
theorem aerosol_optics_zero_mmr_writes_zero
    (ncol nlay nbnd : Nat) (t : AerosolTables) (m : MMRs)
    (rh dpg : Nat → Nat → ℚ) (rh_classes : List ℚ)
    (props : Optical_props_2str) (icol ilay ibnd h : Nat)
    (hin : 1 ≤ icol ∧ icol ≤ ncol ∧ 1 ≤ ilay ∧ ilay ≤ nlay ∧ 1 ≤ ibnd ∧ ibnd ≤ nbnd)
    (hscan : rh_class (rh icol ilay) rh_classes = some h)
    (hz : m.aermr01 icol ilay = 0 ∧ m.aermr02 icol ilay = 0 ∧ m.aermr03 icol ilay = 0 ∧
          m.aermr04 icol ilay = 0 ∧ m.aermr05 icol ilay = 0 ∧ m.aermr06 icol ilay = 0 ∧
          m.aermr07 icol ilay = 0 ∧ m.aermr08 icol ilay = 0 ∧ m.aermr09 icol ilay = 0 ∧
          m.aermr10 icol ilay = 0 ∧ m.aermr11 icol ilay = 0) :
    (aerosol_optics ncol nlay nbnd t m rh dpg rh_classes props).tau icol ilay ibnd = 0 ∧
    (aerosol_optics ncol nlay nbnd t m rh dpg rh_classes props).ssa icol ilay ibnd = 0 ∧
    (aerosol_optics ncol nlay nbnd t m rh dpg rh_classes props).g icol ilay ibnd = 0 ∧
    max (0 : ℚ) float_eps ≠ 0 := by
  obtain ⟨h1, h2, h3, h4, h5, h6, h7, h8, h9, h10, h11⟩ := hz
  have hcell := compute_cell_eq_spec_aux t m rh dpg rh_classes ibnd ilay icol h hscan
  have htau : cell_tau_spec t m dpg ibnd (h + 1) icol ilay = 0 := by
    simp [cell_tau_spec, h1, h2, h3, h4, h5, h6, h7, h8, h9, h10, h11]
  have htaussa : cell_taussa_spec t m dpg ibnd (h + 1) icol ilay = 0 := by
    simp [cell_taussa_spec, h1, h2, h3, h4, h5, h6, h7, h8, h9, h10, h11]
  have htaussag : cell_taussag_spec t m dpg ibnd (h + 1) icol ilay = 0 := by
    simp [cell_taussag_spec, h1, h2, h3, h4, h5, h6, h7, h8, h9, h10, h11]
  have heps : max (0 : ℚ) float_eps ≠ 0 := by norm_num [float_eps]
  refine ⟨?_, ?_, ?_, heps⟩ <;>
    simp [aerosol_optics, hin, hcell, htau, htaussa, htaussag]

/-! Concrete inputs used by the witnesses of the aerosol-optics theorems. -/

/-- Concrete coefficient tables for the witnesses. -/
def wit_tables : AerosolTables where
  mext_phobic := fun b s => (b : ℚ) + 2 * s
  ssa_phobic := fun b s => (b : ℚ) + 3 * s
  g_phobic := fun b s => (b : ℚ) + 5 * s
  mext_philic := fun b h s => (b : ℚ) + 7 * h + 2 * s
  ssa_philic := fun b h s => (b : ℚ) + 7 * h + 3 * s
  g_philic := fun b h s => (b : ℚ) + 7 * h + 5 * s

/-- Concrete nonzero mixing ratios for the witnesses. -/
def wit_mmrs : MMRs where
  aermr01 := fun i l => (i : ℚ) + l
  aermr02 := fun i l => (i : ℚ) + 2 * l
  aermr03 := fun i l => (i : ℚ) + 3 * l
  aermr04 := fun i l => (i : ℚ) + 4 * l
  aermr05 := fun i l => (i : ℚ) + 5 * l
  aermr06 := fun i l => (i : ℚ) + 6 * l
  aermr07 := fun i l => (i : ℚ) + 7 * l
  aermr08 := fun i l => (i : ℚ) + 8 * l
  aermr09 := fun i l => (i : ℚ) + 9 * l
  aermr10 := fun i l => (i : ℚ) + 10 * l
  aermr11 := fun i l => (i : ℚ) + 11 * l

/-- All-zero mixing ratios for the C10 witness. -/
def wit_mmrs0 : MMRs where
  aermr01 := fun _ _ => 0
  aermr02 := fun _ _ => 0
  aermr03 := fun _ _ => 0
  aermr04 := fun _ _ => 0
  aermr05 := fun _ _ => 0
  aermr06 := fun _ _ => 0
  aermr07 := fun _ _ => 0
  aermr08 := fun _ _ => 0
  aermr09 := fun _ _ => 0
  aermr10 := fun _ _ => 0
  aermr11 := fun _ _ => 0

/-- Constant relative humidity 0.85 for the witnesses. -/
def wit_rh : Nat → Nat → ℚ := fun _ _ => 85/100

/-- Constant dry-air mass path 2 for the witnesses. -/
def wit_dpg : Nat → Nat → ℚ := fun _ _ => 2

/-- A concrete previous-contents container for the witnesses. -/
def wit_props : Optical_props_2str where
  tau := fun _ _ _ => 42
  ssa := fun _ _ _ => 43
  g := fun _ _ _ => 44

/-- A second, different previous-contents container for the C4 witness. -/
def wit_props' : Optical_props_2str where
  tau := fun _ _ _ => 17
  ssa := fun _ _ _ => 18
  g := fun _ _ _ => 19

/-- C3 witness: at band 1, layer 1, column 1 with humidity 0.85 and the
example thresholds, the humidity lookup yields bin 3 and the accumulated
cell equals the 11-species sums. -/
theorem compute_all_from_table_cell_eq_spec_witness :
    rh_class (wit_rh 1 1) example_rh_classes = some 3 ∧
    compute_all_from_table_cell wit_tables wit_mmrs wit_rh wit_dpg example_rh_classes 1 1 1 =
      some (cell_tau_spec wit_tables wit_mmrs wit_dpg 1 4 1 1,
            cell_taussa_spec wit_tables wit_mmrs wit_dpg 1 4 1 1,
            cell_taussag_spec wit_tables wit_mmrs wit_dpg 1 4 1 1) :=
  ⟨by norm_num [wit_rh, rh_class, rh_class_loop, example_rh_classes],
   compute_all_from_table_cell_eq_spec wit_tables wit_mmrs wit_rh wit_dpg
     example_rh_classes 1 1 1 3
     (by norm_num [wit_rh, rh_class, rh_class_loop, example_rh_classes])⟩

/-- C4 witness: at band 1, layer 1, column 1 on a 2×2×2 grid with humidity
0.85 the container receives the accumulated tau and the epsilon-floored
normalized ssa and g, independently of the previous contents. -/
theorem aerosol_optics_writes_normalized_cell_witness :
    (aerosol_optics 2 2 2 wit_tables wit_mmrs wit_rh wit_dpg example_rh_classes
        wit_props).tau 1 1 1 =
      (cell_tau_spec wit_tables wit_mmrs wit_dpg 1 4 1 1,
       cell_taussa_spec wit_tables wit_mmrs wit_dpg 1 4 1 1,
       cell_taussag_spec wit_tables wit_mmrs wit_dpg 1 4 1 1).1 ∧
    (aerosol_optics 2 2 2 wit_tables wit_mmrs wit_rh wit_dpg example_rh_classes
        wit_props).ssa 1 1 1 =
      (cell_tau_spec wit_tables wit_mmrs wit_dpg 1 4 1 1,
       cell_taussa_spec wit_tables wit_mmrs wit_dpg 1 4 1 1,
       cell_taussag_spec wit_tables wit_mmrs wit_dpg 1 4 1 1).2.1 /
        max (cell_tau_spec wit_tables wit_mmrs wit_dpg 1 4 1 1,
             cell_taussa_spec wit_tables wit_mmrs wit_dpg 1 4 1 1,
             cell_taussag_spec wit_tables wit_mmrs wit_dpg 1 4 1 1).1 float_eps ∧
    (aerosol_optics 2 2 2 wit_tables wit_mmrs wit_rh wit_dpg example_rh_classes
        wit_props).g 1 1 1 =
      (cell_tau_spec wit_tables wit_mmrs wit_dpg 1 4 1 1,
       cell_taussa_spec wit_tables wit_mmrs wit_dpg 1 4 1 1,
       cell_taussag_spec wit_tables wit_mmrs wit_dpg 1 4 1 1).2.2 /
        max (cell_tau_spec wit_tables wit_mmrs wit_dpg 1 4 1 1,
             cell_taussa_spec wit_tables wit_mmrs wit_dpg 1 4 1 1,
             cell_taussag_spec wit_tables wit_mmrs wit_dpg 1 4 1 1).2.1 float_eps ∧
    (aerosol_optics 2 2 2 wit_tables wit_mmrs wit_rh wit_dpg example_rh_classes
        wit_props').tau 1 1 1 =
      (aerosol_optics 2 2 2 wit_tables wit_mmrs wit_rh wit_dpg example_rh_classes
        wit_props).tau 1 1 1 ∧
    (aerosol_optics 2 2 2 wit_tables wit_mmrs wit_rh wit_dpg example_rh_classes
        wit_props').ssa 1 1 1 =
      (aerosol_optics 2 2 2 wit_tables wit_mmrs wit_rh wit_dpg example_rh_classes
        wit_props).ssa 1 1 1 ∧
    (aerosol_optics 2 2 2 wit_tables wit_mmrs wit_rh wit_dpg example_rh_classes
        wit_props').g 1 1 1 =
      (aerosol_optics 2 2 2 wit_tables wit_mmrs wit_rh wit_dpg example_rh_classes
        wit_props).g 1 1 1 :=
  aerosol_optics_writes_normalized_cell 2 2 2 wit_tables wit_mmrs wit_rh wit_dpg
    example_rh_classes wit_props wit_props' 1 1 1
    (by norm_num)
    (cell_tau_spec wit_tables wit_mmrs wit_dpg 1 4 1 1,
     cell_taussa_spec wit_tables wit_mmrs wit_dpg 1 4 1 1,
     cell_taussag_spec wit_tables wit_mmrs wit_dpg 1 4 1 1)
    (compute_cell_eq_spec_aux wit_tables wit_mmrs wit_rh wit_dpg
      example_rh_classes 1 1 1 3
      (by norm_num [wit_rh, rh_class, rh_class_loop, example_rh_classes]))

/-- C10 witness: with all mixing ratios zero at band 1, layer 1, column 1 on a
2×2×2 grid, the container receives zeros and the denominators are nonzero. -/
theorem aerosol_optics_zero_mmr_writes_zero_witness :
    (aerosol_optics 2 2 2 wit_tables wit_mmrs0 wit_rh wit_dpg example_rh_classes
        wit_props).tau 1 1 1 = 0 ∧
    (aerosol_optics 2 2 2 wit_tables wit_mmrs0 wit_rh wit_dpg example_rh_classes
        wit_props).ssa 1 1 1 = 0 ∧
    (aerosol_optics 2 2 2 wit_tables wit_mmrs0 wit_rh wit_dpg example_rh_classes
        wit_props).g 1 1 1 = 0 ∧
    max (0 : ℚ) float_eps ≠ 0 :=
  aerosol_optics_zero_mmr_writes_zero 2 2 2 wit_tables wit_mmrs0 wit_rh wit_dpg
    example_rh_classes wit_props 1 1 1 3
    (by norm_num)
    (by norm_num [wit_rh, rh_class, rh_class_loop, example_rh_classes])
    (by norm_num [wit_mmrs0])

/-! ## Flux reduction (`Fluxes.cpp`)

The four reduction kernels (`sum_broadband`, `net_broadband_precalc`,
`sum_byband`, `net_byband_precalc`) are `extern "C"` Fortran routines whose
source is not part of this repository; they are modelled from the spec
(section 4.6).  The C++ wiring of `Fluxes_broadband::reduce` and
`Fluxes_byband::reduce` is embedded from `Fluxes.cpp`. -/

/-- A 3-D `Array<Float,3>` with its extents, 1-based indices
(column, level, g-point). -/
structure Arr3 where
  d1 : Nat
  d2 : Nat
  d3 : Nat
  val : Nat → Nat → Nat → ℚ

/-- The spectral discretization data the reductions read from the
`Optical_props_arry` argument: `get_ngpt()`, `get_nband()` and
`get_band_lims_gpoint()` (first and last g-point of each band, 1-based). -/
structure SpectralDisc where
  ngpt : Nat
  nband : Nat
  band_lims : Nat → Nat × Nat

/-- Modelled from the spec: the Fortran kernel `sum_broadband` (not in this
repository) integrates a spectral flux field into one broadband value per
(column, level) by unweighted summation over the `ngpt` spectral points. -/
def sum_broadband (ngpt : Nat) (spectral_flux : Nat → Nat → Nat → ℚ) :
    Nat → Nat → ℚ :=
  fun icol ilev => ∑ igpt ∈ Finset.Icc 1 ngpt, spectral_flux icol ilev igpt

/-- Modelled from the spec: the Fortran kernel `net_broadband_precalc` (not in
this repository) computes net = down − up elementwise per (column, level). -/
def net_broadband_precalc (flux_dn flux_up : Nat → Nat → ℚ) : Nat → Nat → ℚ :=
  fun icol ilev => flux_dn icol ilev - flux_up icol ilev

/-- Modelled from the spec: the Fortran kernel `sum_byband` (not in this
repository) groups the spectral points of each band (per the band-limits
mapping) and sums within each group; `ngpt` only fixes the input extent. -/
def sum_byband (ngpt : Nat) (band_lims : Nat → Nat × Nat)
    (spectral_flux : Nat → Nat → Nat → ℚ) : Nat → Nat → Nat → ℚ :=
  fun icol ilev ibnd =>
    ∑ igpt ∈ Finset.Icc (band_lims ibnd).1 (band_lims ibnd).2,
      spectral_flux icol ilev igpt

/-- Modelled from the spec: the Fortran kernel `net_byband_precalc` (not in
this repository) computes byband net = byband down − byband up elementwise. -/
def net_byband_precalc (bnd_flux_dn bnd_flux_up : Nat → Nat → Nat → ℚ) :
    Nat → Nat → Nat → ℚ :=
  fun icol ilev ibnd => bnd_flux_dn icol ilev ibnd - bnd_flux_up icol ilev ibnd

/-- The broadband flux container (`Fluxes_broadband<double>`), 1-based
(column, level) fields. -/
structure Fluxes_broadband where
  flux_up : Nat → Nat → ℚ
  flux_dn : Nat → Nat → ℚ
  flux_dn_dir : Nat → Nat → ℚ
  flux_net : Nat → Nat → ℚ

/-- The byband flux container (`Fluxes_byband<double>`), extending the
broadband one with 1-based (column, level, band) fields. -/
structure Fluxes_byband extends Fluxes_broadband where
  bnd_flux_up : Nat → Nat → Nat → ℚ
  bnd_flux_dn : Nat → Nat → Nat → ℚ
  bnd_flux_dn_dir : Nat → Nat → Nat → ℚ
  bnd_flux_net : Nat → Nat → Nat → ℚ

/-- Embedding of `Fluxes_broadband::reduce` (two-field overload, Fluxes.cpp lines 87-105):
sum up and down over the `dim(3)` spectral points, then net from the
precalculated broadband fields.  `spectral_disc` and `top_at_1` are received
but never read. -/
def Fluxes_broadband.reduce (self : Fluxes_broadband)
    (gpt_flux_up gpt_flux_dn : Arr3)
    (spectral_disc : SpectralDisc) (top_at_1 : ℤ) : Fluxes_broadband :=
  let ngpt := gpt_flux_up.d3
  let up := sum_broadband ngpt gpt_flux_up.val
  let dn := sum_broadband ngpt gpt_flux_dn.val
  { self with
    flux_up := up
    flux_dn := dn
    flux_net := net_broadband_precalc dn up }

/-- Embedding of `Fluxes_broadband::reduce` (three-field overload, Fluxes.cpp lines
107-123): the two-field reduce, then `sum_broadband` of the direct-beam
field into `flux_dn_dir`. -/
def Fluxes_broadband.reduce_with_dir (self : Fluxes_broadband)
    (gpt_flux_up gpt_flux_dn gpt_flux_dn_dir : Arr3)
    (spectral_disc : SpectralDisc) (top_at_1 : ℤ) : Fluxes_broadband :=
  let ngpt := gpt_flux_up.d3
  let s := self.reduce gpt_flux_up gpt_flux_dn spectral_disc top_at_1
  { s with flux_dn_dir := sum_broadband ngpt gpt_flux_dn_dir.val }

/-- Embedding of `Fluxes_byband::reduce` (two-field overload, Fluxes.cpp lines 134-163):
the broadband reduce, then byband sums of up and down over the band limits
of `spectral_disc`, then byband net from the precalculated byband fields. -/
def Fluxes_byband.reduce (self : Fluxes_byband)
    (gpt_flux_up gpt_flux_dn : Arr3)
    (spectral_disc : SpectralDisc) (top_at_1 : ℤ) : Fluxes_byband :=
  let ngpt := spectral_disc.ngpt
  let band_lims := spectral_disc.band_lims
  let b := self.toFluxes_broadband.reduce gpt_flux_up gpt_flux_dn spectral_disc top_at_1
  let bup := sum_byband ngpt band_lims gpt_flux_up.val
  let bdn := sum_byband ngpt band_lims gpt_flux_dn.val
  { self with
    toFluxes_broadband := b
    bnd_flux_up := bup
    bnd_flux_dn := bdn
    bnd_flux_net := net_byband_precalc bdn bup }

/-- Embedding of `Fluxes_byband::reduce` (three-field overload, Fluxes.cpp lines 165-190):
the broadband three-field reduce, then its own two-field reduce, then the
byband sum of the direct-beam field. -/
def Fluxes_byband.reduce_with_dir (self : Fluxes_byband)
    (gpt_flux_up gpt_flux_dn gpt_flux_dn_dir : Arr3)
    (spectral_disc : SpectralDisc) (top_at_1 : ℤ) : Fluxes_byband :=
  let ngpt := spectral_disc.ngpt
  let band_lims := spectral_disc.band_lims
  let s1 : Fluxes_byband :=
    { self with
      toFluxes_broadband :=
        self.toFluxes_broadband.reduce_with_dir
          gpt_flux_up gpt_flux_dn gpt_flux_dn_dir spectral_disc top_at_1 }
  let s2 := s1.reduce gpt_flux_up gpt_flux_dn spectral_disc top_at_1
  { s2 with bnd_flux_dn_dir := sum_byband ngpt band_lims gpt_flux_dn_dir.val }

/-- C5: after every flux reduction (broadband and byband, with or without the
direct-beam field), net = down − up holds exactly at every (column, level)
for the broadband fields and at every (column, level, band) for the byband
fields, the byband net being the element-wise difference of the byband down
and up fields. -/
theorem reduce_net_eq_down_sub_up
    (bb : Fluxes_broadband) (by' : Fluxes_byband)
    (gpt_flux_up gpt_flux_dn gpt_flux_dn_dir : Arr3)
    (spectral_disc : SpectralDisc) (top_at_1 : ℤ) (icol ilev ibnd : Nat) :
    ((bb.reduce gpt_flux_up gpt_flux_dn spectral_disc top_at_1).flux_net icol ilev =
      (bb.reduce gpt_flux_up gpt_flux_dn spectral_disc top_at_1).flux_dn icol ilev -
      (bb.reduce gpt_flux_up gpt_flux_dn spectral_disc top_at_1).flux_up icol ilev) ∧
    ((bb.reduce_with_dir gpt_flux_up gpt_flux_dn gpt_flux_dn_dir spectral_disc top_at_1).flux_net icol ilev =
      (bb.reduce_with_dir gpt_flux_up gpt_flux_dn gpt_flux_dn_dir spectral_disc top_at_1).flux_dn icol ilev -
      (bb.reduce_with_dir gpt_flux_up gpt_flux_dn gpt_flux_dn_dir spectral_disc top_at_1).flux_up icol ilev) ∧
    ((by'.reduce gpt_flux_up gpt_flux_dn spectral_disc top_at_1).flux_net icol ilev =
      (by'.reduce gpt_flux_up gpt_flux_dn spectral_disc top_at_1).flux_dn icol ilev -
      (by'.reduce gpt_flux_up gpt_flux_dn spectral_disc top_at_1).flux_up icol ilev) ∧
    ((by'.reduce gpt_flux_up gpt_flux_dn spectral_disc top_at_1).bnd_flux_net icol ilev ibnd =
      (by'.reduce gpt_flux_up gpt_flux_dn spectral_disc top_at_1).bnd_flux_dn icol ilev ibnd -
      (by'.reduce gpt_flux_up gpt_flux_dn spectral_disc top_at_1).bnd_flux_up icol ilev ibnd) ∧
    ((by'.reduce gpt_flux_up gpt_flux_dn spectral_disc top_at_1).bnd_flux_net =
      net_byband_precalc
        (by'.reduce gpt_flux_up gpt_flux_dn spectral_disc top_at_1).bnd_flux_dn
        (by'.reduce gpt_flux_up gpt_flux_dn spectral_disc top_at_1).bnd_flux_up) ∧
    ((by'.reduce_with_dir gpt_flux_up gpt_flux_dn gpt_flux_dn_dir spectral_disc top_at_1).flux_net icol ilev =
      (by'.reduce_with_dir gpt_flux_up gpt_flux_dn gpt_flux_dn_dir spectral_disc top_at_1).flux_dn icol ilev -
      (by'.reduce_with_dir gpt_flux_up gpt_flux_dn gpt_flux_dn_dir spectral_disc top_at_1).flux_up icol ilev) ∧
    ((by'.reduce_with_dir gpt_flux_up gpt_flux_dn gpt_flux_dn_dir spectral_disc top_at_1).bnd_flux_net icol ilev ibnd =
      (by'.reduce_with_dir gpt_flux_up gpt_flux_dn gpt_flux_dn_dir spectral_disc top_at_1).bnd_flux_dn icol ilev ibnd -
      (by'.reduce_with_dir gpt_flux_up gpt_flux_dn gpt_flux_dn_dir spectral_disc top_at_1).bnd_flux_up icol ilev ibnd) :=
  ⟨rfl, rfl, rfl, rfl, rfl, rfl, rfl⟩

/-- C9: the broadband reduce depends only on the spectral flux arrays (values
and extents): two calls with equal spectral fluxes but different
`spectral_disc` objects and different `top_at_1` flags produce identical
flux_up, flux_dn, flux_net — and identical (untouched) flux_dn_dir. -/
theorem broadband_reduce_ignores_disc_and_orientation
    (self : Fluxes_broadband) (gpt_flux_up gpt_flux_dn : Arr3)
    (disc1 disc2 : SpectralDisc) (top1 top2 : ℤ) :
    (self.reduce gpt_flux_up gpt_flux_dn disc1 top1).flux_up =
      (self.reduce gpt_flux_up gpt_flux_dn disc2 top2).flux_up ∧
    (self.reduce gpt_flux_up gpt_flux_dn disc1 top1).flux_dn =
      (self.reduce gpt_flux_up gpt_flux_dn disc2 top2).flux_dn ∧
    (self.reduce gpt_flux_up gpt_flux_dn disc1 top1).flux_net =
      (self.reduce gpt_flux_up gpt_flux_dn disc2 top2).flux_net ∧
    (self.reduce gpt_flux_up gpt_flux_dn disc1 top1).flux_dn_dir =
      (self.reduce gpt_flux_up gpt_flux_dn disc2 top2).flux_dn_dir :=
  ⟨rfl, rfl, rfl, rfl⟩

/-- C7: the three-field reduce overloads behave as the two-field overloads
plus the direct-beam sums: on the same up/down inputs the up, down, net,
byband-up, byband-down and byband-net outputs coincide, and the direct-beam
broadband and byband outputs are the corresponding sums of the direct-beam
spectral field. -/
theorem reduce_with_dir_is_fused_reduce
    (bb : Fluxes_broadband) (by' : Fluxes_byband)
    (gpt_flux_up gpt_flux_dn gpt_flux_dn_dir : Arr3)
    (spectral_disc : SpectralDisc) (top_at_1 : ℤ) :
    ((bb.reduce_with_dir gpt_flux_up gpt_flux_dn gpt_flux_dn_dir spectral_disc top_at_1).flux_up =
      (bb.reduce gpt_flux_up gpt_flux_dn spectral_disc top_at_1).flux_up) ∧
    ((bb.reduce_with_dir gpt_flux_up gpt_flux_dn gpt_flux_dn_dir spectral_disc top_at_1).flux_dn =
      (bb.reduce gpt_flux_up gpt_flux_dn spectral_disc top_at_1).flux_dn) ∧
    ((bb.reduce_with_dir gpt_flux_up gpt_flux_dn gpt_flux_dn_dir spectral_disc top_at_1).flux_net =
      (bb.reduce gpt_flux_up gpt_flux_dn spectral_disc top_at_1).flux_net) ∧
    ((bb.reduce_with_dir gpt_flux_up gpt_flux_dn gpt_flux_dn_dir spectral_disc top_at_1).flux_dn_dir =
      sum_broadband gpt_flux_up.d3 gpt_flux_dn_dir.val) ∧
    ((by'.reduce_with_dir gpt_flux_up gpt_flux_dn gpt_flux_dn_dir spectral_disc top_at_1).flux_up =
      (by'.reduce gpt_flux_up gpt_flux_dn spectral_disc top_at_1).flux_up) ∧
    ((by'.reduce_with_dir gpt_flux_up gpt_flux_dn gpt_flux_dn_dir spectral_disc top_at_1).flux_dn =
      (by'.reduce gpt_flux_up gpt_flux_dn spectral_disc top_at_1).flux_dn) ∧
    ((by'.reduce_with_dir gpt_flux_up gpt_flux_dn gpt_flux_dn_dir spectral_disc top_at_1).flux_net =
      (by'.reduce gpt_flux_up gpt_flux_dn spectral_disc top_at_1).flux_net) ∧
    ((by'.reduce_with_dir gpt_flux_up gpt_flux_dn gpt_flux_dn_dir spectral_disc top_at_1).bnd_flux_up =
      (by'.reduce gpt_flux_up gpt_flux_dn spectral_disc top_at_1).bnd_flux_up) ∧
    ((by'.reduce_with_dir gpt_flux_up gpt_flux_dn gpt_flux_dn_dir spectral_disc top_at_1).bnd_flux_dn =
      (by'.reduce gpt_flux_up gpt_flux_dn spectral_disc top_at_1).bnd_flux_dn) ∧
    ((by'.reduce_with_dir gpt_flux_up gpt_flux_dn gpt_flux_dn_dir spectral_disc top_at_1).bnd_flux_net =
      (by'.reduce gpt_flux_up gpt_flux_dn spectral_disc top_at_1).bnd_flux_net) ∧
    ((by'.reduce_with_dir gpt_flux_up gpt_flux_dn gpt_flux_dn_dir spectral_disc top_at_1).flux_dn_dir =
      sum_broadband gpt_flux_up.d3 gpt_flux_dn_dir.val) ∧
    ((by'.reduce_with_dir gpt_flux_up gpt_flux_dn gpt_flux_dn_dir spectral_disc top_at_1).bnd_flux_dn_dir =
      sum_byband spectral_disc.ngpt spectral_disc.band_lims gpt_flux_dn_dir.val) :=
  ⟨rfl, rfl, rfl, rfl, rfl, rfl, rfl, rfl, rfl, rfl, rfl, rfl⟩

lemma band_partition_sum (bl : Nat → Nat × Nat) (f : Nat → ℚ) :
    ∀ n, 1 ≤ n → (bl 1).1 = 1 →
    (∀ b, 1 ≤ b → b < n → (bl (b + 1)).1 = (bl b).2 + 1) →
    (∀ b, 1 ≤ b → b ≤ n → (bl b).1 ≤ (bl b).2) →
    ∑ b ∈ Finset.Icc 1 n, ∑ g ∈ Finset.Icc (bl b).1 (bl b).2, f g =
      ∑ g ∈ Finset.Icc 1 (bl n).2, f g := by
  intro n
  induction n with
  | zero => intro h; omega
  | succ n ih =>
    intro _ hfirst hchain hne
    rcases Nat.eq_zero_or_pos n with rfl | hn
    · simp [Finset.Icc_self, hfirst]
    · have hstep : ∑ b ∈ Finset.Icc 1 (n + 1), ∑ g ∈ Finset.Icc (bl b).1 (bl b).2, f g =
          (∑ b ∈ Finset.Icc 1 n, ∑ g ∈ Finset.Icc (bl b).1 (bl b).2, f g) +
            ∑ g ∈ Finset.Icc (bl (n + 1)).1 (bl (n + 1)).2, f g :=
        Finset.sum_Icc_succ_top (by omega) _
      have hprev := ih hn hfirst
        (fun b hb1 hb2 => hchain b hb1 (by omega))
        (fun b hb1 hb2 => hne b hb1 (by omega))
      have hlink : (bl (n + 1)).1 = (bl n).2 + 1 := hchain n hn (by omega)
      have hmono : (bl n).2 ≤ (bl (n + 1)).2 := by
        have := hne (n + 1) (by omega) (by omega)
        omega
      rw [hstep, hprev, hlink]
      have h1 : Finset.Icc 1 (bl n).2 = Finset.Ioc 0 (bl n).2 := by
        rw [← Nat.Icc_succ_left]
      have h2 : Finset.Icc ((bl n).2 + 1) (bl (n + 1)).2 =
          Finset.Ioc (bl n).2 (bl (n + 1)).2 := by
        rw [← Nat.Icc_succ_left]
      have h3 : Finset.Icc 1 (bl (n + 1)).2 = Finset.Ioc 0 (bl (n + 1)).2 := by
        rw [← Nat.Icc_succ_left]
      rw [h1, h2, h3]
      exact Finset.sum_Ioc_consecutive f (Nat.zero_le _) hmono

/-- C6: when the band limits tile the g-point range 1..ngpt contiguously,
applying `sum_byband` and then summing the per-band values over all bands
equals `sum_broadband` on the same spectral field at every (column, level) —
exactly in this model, hence in particular within 1e-10 relative tolerance. -/
theorem sum_byband_then_bands_eq_sum_broadband
    (disc : SpectralDisc) (flux : Arr3) (icol ilev : Nat)
    (hnb : 1 ≤ disc.nband)
    (hfirst : (disc.band_lims 1).1 = 1)
    (hlast : (disc.band_lims disc.nband).2 = disc.ngpt)
    (hchain : ∀ b, 1 ≤ b → b < disc.nband →
      (disc.band_lims (b + 1)).1 = (disc.band_lims b).2 + 1)
    (hne : ∀ b, 1 ≤ b → b ≤ disc.nband →
      (disc.band_lims b).1 ≤ (disc.band_lims b).2) :
    (∑ ibnd ∈ Finset.Icc 1 disc.nband,
        sum_byband disc.ngpt disc.band_lims flux.val icol ilev ibnd) =
      sum_broadband disc.ngpt flux.val icol ilev ∧
    |(∑ ibnd ∈ Finset.Icc 1 disc.nband,
        sum_byband disc.ngpt disc.band_lims flux.val icol ilev ibnd) -
      sum_broadband disc.ngpt flux.val icol ilev| ≤
      1 / 10 ^ 10 * |sum_broadband disc.ngpt flux.val icol ilev| := by
  have heq : (∑ ibnd ∈ Finset.Icc 1 disc.nband,
      sum_byband disc.ngpt disc.band_lims flux.val icol ilev ibnd) =
      sum_broadband disc.ngpt flux.val icol ilev := by
    unfold sum_byband sum_broadband
    rw [band_partition_sum disc.band_lims (fun g => flux.val icol ilev g)
      disc.nband hnb hfirst hchain hne, hlast]
  refine ⟨heq, ?_⟩
  rw [heq, sub_self, abs_zero]
  positivity

/-- Band limits used by the C6 witness: band 1 holds g-points 1..2, band 2
holds g-point 3. -/
def wit_band_lims : Nat → Nat × Nat :=
  fun b => if b = 1 then (1, 2) else (3, 3)

/-- Spectral discretization used by the C6 witness. -/
def wit_disc : SpectralDisc where
  ngpt := 3
  nband := 2
  band_lims := wit_band_lims

/-- Spectral flux field used by the C6 witness. -/
def wit_flux : Arr3 where
  d1 := 1
  d2 := 1
  d3 := 3
  val := fun _ _ g => (g : ℚ)

/-- C6 witness: on a 2-band tiling of 3 g-points, the byband sums summed over
the bands equal the broadband sum at (column 1, level 1). -/
theorem sum_byband_then_bands_eq_sum_broadband_witness :
    (∑ ibnd ∈ Finset.Icc 1 wit_disc.nband,
        sum_byband wit_disc.ngpt wit_disc.band_lims wit_flux.val 1 1 ibnd) =
      sum_broadband wit_disc.ngpt wit_flux.val 1 1 ∧
    |(∑ ibnd ∈ Finset.Icc 1 wit_disc.nband,
        sum_byband wit_disc.ngpt wit_disc.band_lims wit_flux.val 1 1 ibnd) -
      sum_broadband wit_disc.ngpt wit_flux.val 1 1| ≤
      1 / 10 ^ 10 * |sum_broadband wit_disc.ngpt wit_flux.val 1 1| :=
  sum_byband_then_bands_eq_sum_broadband wit_disc wit_flux 1 1
    (by norm_num [wit_disc])
    (by norm_num [wit_disc, wit_band_lims])
    (by norm_num [wit_disc, wit_band_lims])
    (by
      intro b hb1 hb2
      have hb : b = 1 := by simp [wit_disc] at hb2; omega
      subst hb
      norm_num [wit_disc, wit_band_lims])
    (by
      intro b hb1 hb2
      have hb : b = 1 ∨ b = 2 := by simp [wit_disc] at hb2; omega
      rcases hb with rfl | rfl <;> norm_num [wit_disc, wit_band_lims])

/-! ## Column blocking (`test_rte_rrtmgp.cpp`, `solve_radiation`, lines 375-495)

The driver splits `n_col` into `n_blocks = n_col / n_col_block` full blocks
plus a remainder block of `n_col_block_left = n_col % n_col_block` columns,
solves each block, and copies the per-block fluxes into the full output
arrays at offset `col_s`.  The per-block solve (gas optics, `Rte_lw::rte_lw`
and the flux reduction) is not part of this repository's source files. -/

section ColumnBlocking

variable {α β : Type}

/-- Modelled from the spec: the per-block radiation solve (gas optics +
longwave solver + flux reduction, not in this repository) is data-parallel
across columns with no cross-column synchronization (spec section 5), so the
block result at local column `i` of a block starting at global column
`col_s` is a fixed per-column function of that column's inputs
`atm (col_s + i - 1)`. -/
def block_solve (solve_column : α → β) (atm : Nat → α) (col_s : Nat) :
    Nat → β :=
  fun i => solve_column (atm (col_s + i - 1))

/-- The copy loop of the driver: `for icol = 1..n, out(icol + col_s - 1) :=
blk(icol)`, embedded as a recursion on the loop count. -/
def copy_loop (blk : Nat → β) (col_s : Nat) :
    Nat → (Nat → Option β) → Nat → Option β
  | 0, out => out
  | n + 1, out =>
      let prev := copy_loop blk col_s n out
      fun g => if g = n + 1 + col_s - 1 then some (blk (n + 1)) else prev g

/-- The main block loop of the driver: blocks `b = 1..nb`, block `b`
covering global columns `(b-1)*k+1 .. b*k`. -/
def main_blocks (solve_column : α → β) (atm : Nat → α) (k : Nat) :
    Nat → Nat → Option β
  | 0 => fun _ => none
  | b + 1 =>
      copy_loop (block_solve solve_column atm (b * k + 1)) (b * k + 1) k
        (main_blocks solve_column atm k b)

/-- The blocked `solve_radiation` driver: run the `n_col / k` full blocks,
then, when `n_col % k > 0`, the remainder block starting at
`n_col - n_col % k + 1`. -/
def solve_radiation_blocked (solve_column : α → β) (atm : Nat → α)
    (n_col k : Nat) : Nat → Option β :=
  if 0 < n_col % k then
    copy_loop (block_solve solve_column atm (n_col - n_col % k + 1))
      (n_col - n_col % k + 1) (n_col % k)
      (main_blocks solve_column atm k (n_col / k))
  else main_blocks solve_column atm k (n_col / k)

lemma copy_loop_spec (blk : Nat → β) (col_s : Nat) (hs : 1 ≤ col_s) :
    ∀ n out g, copy_loop blk col_s n out g =
      if col_s ≤ g ∧ g < col_s + n then some (blk (g + 1 - col_s)) else out g := by
  intro n
  induction n with
  | zero =>
    intro out g
    simp only [copy_loop]
    rw [if_neg (by omega)]
  | succ n ih =>
    intro out g
    simp only [copy_loop]
    by_cases hg : g = n + 1 + col_s - 1
    · rw [if_pos hg, if_pos (by omega)]
      have harg : g + 1 - col_s = n + 1 := by omega
      rw [harg]
    · rw [if_neg hg, ih out g]
      by_cases h2 : col_s ≤ g ∧ g < col_s + n
      · rw [if_pos h2, if_pos (by omega)]
      · rw [if_neg h2, if_neg (by omega)]

lemma main_blocks_spec (solve_column : α → β) (atm : Nat → α) (k : Nat)
    (hk : 1 ≤ k) :
    ∀ nb g, main_blocks solve_column atm k nb g =
      if 1 ≤ g ∧ g ≤ nb * k then some (solve_column (atm g)) else none := by
  intro nb
  induction nb with
  | zero =>
    intro g
    simp only [main_blocks]
    rw [if_neg (by omega)]
  | succ nb ih =>
    intro g
    have hsm : (nb + 1) * k = nb * k + k := Nat.succ_mul nb k
    simp only [main_blocks]
    rw [copy_loop_spec _ _ (by omega) k _ g]
    by_cases h : nb * k + 1 ≤ g ∧ g < nb * k + 1 + k
    · rw [if_pos h, if_pos (by omega)]
      simp only [block_solve]
      have harg : nb * k + 1 + (g + 1 - (nb * k + 1)) - 1 = g := by omega
      rw [harg]
    · rw [if_neg h, ih g]
      by_cases h2 : 1 ≤ g ∧ g ≤ nb * k
      · rw [if_pos h2, if_pos (by omega)]
      · rw [if_neg h2, if_neg (by omega)]

lemma solve_radiation_blocked_spec (solve_column : α → β) (atm : Nat → α)
    (n_col k g : Nat) (hk : 1 ≤ k) (hg1 : 1 ≤ g) (hg2 : g ≤ n_col) :
    solve_radiation_blocked solve_column atm n_col k g =
      some (solve_column (atm g)) := by
  have hdm : n_col / k * k + n_col % k = n_col := Nat.div_add_mod' n_col k
  unfold solve_radiation_blocked
  by_cases hl : 0 < n_col % k
  · rw [if_pos hl, copy_loop_spec _ _ (by omega) _ _ g]
    by_cases hin : n_col - n_col % k + 1 ≤ g ∧ g < n_col - n_col % k + 1 + n_col % k
    · rw [if_pos hin]
      simp only [block_solve]
      have harg : n_col - n_col % k + 1 + (g + 1 - (n_col - n_col % k + 1)) - 1 = g := by
        omega
      rw [harg]
    · rw [if_neg hin, main_blocks_spec _ _ _ hk _ g, if_pos (by omega)]
  · rw [if_neg hl, main_blocks_spec _ _ _ hk _ g, if_pos (by omega)]

/-- C8: assembling the per-block fluxes of the blocked driver into the full
output yields, at every column, the same result for any two block sizes —
the blocking is invisible in the output. -/
theorem solve_radiation_blocked_block_size_invariant
    (solve_column : α → β) (atm : Nat → α) (n_col k1 k2 g : Nat)
    (hk1 : 1 ≤ k1) (hk2 : 1 ≤ k2) (hg1 : 1 ≤ g) (hg2 : g ≤ n_col) :
    solve_radiation_blocked solve_column atm n_col k1 g =
      solve_radiation_blocked solve_column atm n_col k2 g := by
  rw [solve_radiation_blocked_spec solve_column atm n_col k1 g hk1 hg1 hg2,
    solve_radiation_blocked_spec solve_column atm n_col k2 g hk2 hg1 hg2]

/-- C8 witness: over 5 columns, block size 4 (one full block plus a remainder
block of 1) and block size 2 agree at column 5. -/
theorem solve_radiation_blocked_block_size_invariant_witness :
    solve_radiation_blocked (fun x : ℚ => x + 1) (fun i => (i : ℚ)) 5 4 5 =
      solve_radiation_blocked (fun x : ℚ => x + 1) (fun i => (i : ℚ)) 5 2 5 :=
  solve_radiation_blocked_block_size_invariant (fun x : ℚ => x + 1)
    (fun i => (i : ℚ)) 5 4 2 5 (by norm_num) (by norm_num) (by norm_num) (by norm_num)

end ColumnBlocking

end RteRrtmgp
